import Mathlib

/-!
Verification development for the english-tutor backend.

The definitions below are a shallow embedding of the session lifecycle and
message-send orchestration core of the repository: the auth service
(register, login, refreshAccessToken, logout, cleanupExpiredTokens), the
JWT helpers of src/utils/database.ts, the agent client (detectMessageFormat,
sendMessage with its fallback), the chat service (sendMessage,
generateConversationTitle) and the LLM lookup controller (getUserById).

Modelling conventions: timestamps are natural numbers (milliseconds since
epoch); the Prisma tables are lists of records inside a DB structure; every
stateful operation takes the DB and the current time and returns the updated
DB together with an Except value (thrown service errors become the error
branch). Signed JWTs are modelled as an injective structure holding the
payload, the signing secret, iat and exp, mirroring what jwt.sign commits
to. The bcrypt hash is modelled as an injective tagging function, so that
bcrypt.compare is equality of hashes. The external LLM call is modelled by
a NetOutcome parameter covering success and each failure mode.
-/

namespace EnglishTutor

/-! Configuration defaults, from src/src/config/index.ts -/

def maxLoginAttempts : Nat := 5

def accountLockoutDuration : Nat := 900000

def accessSecret : String := "default-access-secret-change-me"

def refreshSecret : String := "default-refresh-secret-change-me"

def accessExpiry : String := "15m"

def refreshExpiry : String := "7d"

/-! JWT codec, from src/src/utils/database.ts -/

structure TokenPayload where
  userId : String
  email : String
  role : String
deriving DecidableEq

structure Jwt where
  payload : TokenPayload
  secret : String
  iat : Nat
  exp : Nat
deriving DecidableEq

structure DecodedToken where
  userId : String
  email : String
  role : String
  iat : Nat
  exp : Nat
deriving DecidableEq

def digitsToNat (cs : List Char) : Nat :=
  cs.foldl (fun a c => a * 10 + (c.toNat - 48)) 0

/-- Expiry strings are parsed with the pattern digits-then-unit, as in
getTokenExpiry and the expiresIn option of jwt.sign; the result is the
offset in milliseconds. -/
def parseExpiryMs (s : String) : Option Nat :=
  let cs := s.toList
  let digits := cs.takeWhile Char.isDigit
  let rest := cs.dropWhile Char.isDigit
  if digits.isEmpty then none
  else
    match rest with
    | [u] =>
      let value := digitsToNat digits
      if u = 's' then some (value * 1000)
      else if u = 'm' then some (value * 60000)
      else if u = 'h' then some (value * 3600000)
      else if u = 'd' then some (value * 86400000)
      else none
    | _ => none

def expiresInMs (s : String) : Nat := (parseExpiryMs s).getD 0

def getTokenExpiry (expiryString : String) (now : Nat) : Option Nat :=
  (parseExpiryMs expiryString).map (fun offset => now + offset)

def jwtSign (payload : TokenPayload) (secret : String) (now ttlMs : Nat) : Jwt :=
  { payload := payload, secret := secret, iat := now, exp := now + ttlMs }

def generateAccessToken (payload : TokenPayload) (now : Nat) : Jwt :=
  jwtSign payload accessSecret now (expiresInMs accessExpiry)

def generateRefreshToken (payload : TokenPayload) (now : Nat) : Jwt :=
  jwtSign payload refreshSecret now (expiresInMs refreshExpiry)

inductive ErrorCode
  | EMAIL_ALREADY_EXISTS
  | INVALID_CREDENTIALS
  | ACCOUNT_LOCKED
  | TOKEN_INVALID
  | TOKEN_EXPIRED
  | USER_NOT_FOUND
  | CONVERSATION_NOT_FOUND
  | FORBIDDEN
  | UNIQUE_VIOLATION
  | INTERNAL
deriving DecidableEq

inductive SvcError
  | unauthorized (message : String) (code : ErrorCode)
  | conflict (message : String) (code : ErrorCode)
  | notFound (message : String) (code : ErrorCode)
  | forbidden (message : String) (code : ErrorCode)
  | db (code : ErrorCode)
deriving DecidableEq

def verifyAccessToken (t : Jwt) (now : Nat) : Except SvcError DecodedToken :=
  if t.secret ≠ accessSecret then
    .error (.unauthorized "Invalid access token" .TOKEN_INVALID)
  else if t.exp ≤ now then
    .error (.unauthorized "Access token expired" .TOKEN_EXPIRED)
  else
    .ok { userId := t.payload.userId, email := t.payload.email,
          role := t.payload.role, iat := t.iat, exp := t.exp }

def verifyRefreshToken (t : Jwt) (now : Nat) : Except SvcError DecodedToken :=
  if t.secret ≠ refreshSecret then
    .error (.unauthorized "Invalid refresh token" .TOKEN_INVALID)
  else if t.exp ≤ now then
    .error (.unauthorized "Refresh token expired" .TOKEN_EXPIRED)
  else
    .ok { userId := t.payload.userId, email := t.payload.email,
          role := t.payload.role, iat := t.iat, exp := t.exp }

/-! Persisted records, from the Prisma schema migration -/

structure User where
  id : String
  email : String
  password : String
  name : String
  role : String
  emailVerified : Bool
  loginAttempts : Nat
  lockedUntil : Option Nat
  createdAt : Nat
  updatedAt : Nat
  lastLoginAt : Option Nat
deriving DecidableEq

structure RefreshTokenRecord where
  id : String
  token : Jwt
  userId : String
  expiresAt : Nat
  createdAt : Nat
  revokedAt : Option Nat
deriving DecidableEq

structure Conversation where
  id : String
  userId : String
  title : String
  createdAt : Nat
  updatedAt : Nat
deriving DecidableEq

inductive MessageFormat
  | text
  | markdown
  | code
deriving DecidableEq

structure MessageMetadata where
  model : String
  tokens : Option Nat
  processingTime : Option Nat
deriving DecidableEq

structure Message where
  id : String
  conversationId : String
  role : String
  content : String
  format : MessageFormat
  status : String
  timestamp : Nat
  metadata : Option MessageMetadata
deriving DecidableEq

structure DB where
  users : List User
  refreshTokens : List RefreshTokenRecord
  conversations : List Conversation
  messages : List Message
  nextId : Nat
deriving DecidableEq

def emptyDB : DB :=
  { users := [], refreshTokens := [], conversations := [], messages := [], nextId := 0 }

def freshId (n : Nat) : String := "uuid-" ++ toString n

def updateUser (db : DB) (userId : String) (f : User → User) : DB :=
  { db with users := db.users.map (fun u => if u.id = userId then f u else u) }

/-- JavaScript toLowerCase, modelled character by character so that it is
kernel-reducible. -/
def toLowerStr (s : String) : String := String.mk (s.toList.map Char.toLower)

/-! bcrypt, modelled as an injective tag so that compare is hash equality -/

def bcryptHash (password : String) : String := "bcrypt-hash:" ++ password

def bcryptCompare (password hash : String) : Bool := hash = bcryptHash password

/-! Auth service, from the authService module embedded in src/docs/DEPLOYMENT.md -/

structure AuthUser where
  id : String
  email : String
  name : String
  role : String
  emailVerified : Bool
deriving DecidableEq

structure AuthResponse where
  user : AuthUser
  accessToken : Jwt
  refreshToken : Jwt
deriving DecidableEq

def dummyAuthResponse : AuthResponse :=
  { user := { id := "", email := "", name := "", role := "", emailVerified := false },
    accessToken := jwtSign { userId := "", email := "", role := "" } "" 0 0,
    refreshToken := jwtSign { userId := "", email := "", role := "" } "" 0 0 }

/-- Math.ceil of the remaining lock time divided by 1000 and by 60, i.e. the
remaining time in whole minutes, as computed by checkAccountLock. -/
def remainingLockMinutes (lockedUntil now : Nat) : Nat :=
  ((lockedUntil - now) + 59999) / 60000

def lockMessage (n : Nat) : String :=
  "Account is locked. Please try again in " ++ toString n ++ " minutes"

/-- checkAccountLock: throw ACCOUNT_LOCKED while the lock is in the future;
reset the counter and the lock in the store once the lock has elapsed. -/
def checkAccountLock (db : DB) (user : User) (now : Nat) : Except SvcError DB :=
  match user.lockedUntil with
  | some l =>
    if now < l then
      .error (.unauthorized (lockMessage (remainingLockMinutes l now)) .ACCOUNT_LOCKED)
    else
      .ok (updateUser db user.id (fun u => { u with loginAttempts := 0, lockedUntil := none }))
  | none => .ok db

/-- handleFailedLogin: increment the attempt counter from the value the
caller passed in; at the configured maximum, stamp the lock and throw. -/
def handleFailedLogin (db : DB) (userId : String) (currentAttempts : Nat) (now : Nat) :
    DB × Option SvcError :=
  let attempts := currentAttempts + 1
  if maxLoginAttempts ≤ attempts then
    (updateUser db userId (fun u =>
       { u with loginAttempts := attempts,
                lockedUntil := some (now + accountLockoutDuration) }),
     some (.unauthorized "Too many failed login attempts. Account locked for 15 minutes"
             .ACCOUNT_LOCKED))
  else
    (updateUser db userId (fun u => { u with loginAttempts := attempts }), none)

/-- prisma.refreshToken.create: the token column has a unique index, so a
colliding token value makes the insert fail. -/
def storeRefreshToken (db : DB) (tok : Jwt) (userId : String) (now : Nat) :
    Except SvcError DB :=
  if db.refreshTokens.any (fun r => r.token = tok) then
    .error (.db .UNIQUE_VIOLATION)
  else
    match getTokenExpiry refreshExpiry now with
    | none => .error (.db .INTERNAL)
    | some e =>
      .ok { db with
              refreshTokens := db.refreshTokens ++
                [{ id := freshId db.nextId, token := tok, userId := userId,
                   expiresAt := e, createdAt := now, revokedAt := none }],
              nextId := db.nextId + 1 }

structure RegisterData where
  email : String
  password : String
  name : String
deriving DecidableEq

def register (db : DB) (data : RegisterData) (now : Nat) :
    DB × Except SvcError AuthResponse :=
  if (db.users.find? (fun u => u.email = toLowerStr data.email)).isSome then
    (db, .error (.conflict "Email already registered" .EMAIL_ALREADY_EXISTS))
  else
    let user : User :=
      { id := freshId db.nextId, email := toLowerStr data.email,
        password := bcryptHash data.password, name := data.name, role := "user",
        emailVerified := false, loginAttempts := 0, lockedUntil := none,
        createdAt := now, updatedAt := now, lastLoginAt := none }
    let db1 : DB := { db with users := db.users ++ [user], nextId := db.nextId + 1 }
    let payload : TokenPayload := { userId := user.id, email := user.email, role := user.role }
    let accessToken := generateAccessToken payload now
    let refreshToken := generateRefreshToken payload now
    match storeRefreshToken db1 refreshToken user.id now with
    | .error e => (db1, .error e)
    | .ok db2 =>
      (db2, .ok { user := { id := user.id, email := user.email, name := user.name,
                            role := user.role, emailVerified := user.emailVerified },
                  accessToken := accessToken, refreshToken := refreshToken })

/-- login, mirroring the source line by line: the user record is fetched
once, the lock is checked (possibly resetting the stored counters), the
password is compared, and the failed path passes the loginAttempts value of
the originally fetched record to handleFailedLogin. -/
def login (db : DB) (email password : String) (now : Nat) :
    DB × Except SvcError AuthResponse :=
  match db.users.find? (fun u => u.email = toLowerStr email) with
  | none => (db, .error (.unauthorized "Invalid email or password" .INVALID_CREDENTIALS))
  | some user =>
    match checkAccountLock db user now with
    | .error e => (db, .error e)
    | .ok db1 =>
      if bcryptCompare password user.password then
        let db2 := updateUser db1 user.id (fun u =>
          { u with loginAttempts := 0, lockedUntil := none, lastLoginAt := some now })
        let payload : TokenPayload :=
          { userId := user.id, email := user.email, role := user.role }
        let accessToken := generateAccessToken payload now
        let refreshToken := generateRefreshToken payload now
        match storeRefreshToken db2 refreshToken user.id now with
        | .error e => (db2, .error e)
        | .ok db3 =>
          (db3, .ok { user := { id := user.id, email := user.email, name := user.name,
                                role := user.role, emailVerified := user.emailVerified },
                      accessToken := accessToken, refreshToken := refreshToken })
      else
        let step := handleFailedLogin db1 user.id user.loginAttempts now
        match step.2 with
        | some e => (step.1, .error e)
        | none =>
          (step.1, .error (.unauthorized "Invalid email or password" .INVALID_CREDENTIALS))

/-- refreshAccessToken: verify the signature, look the token up in the
store, reject revoked or expired records, revoke the presented record and
issue plus persist a fresh pair. -/
def refreshAccessToken (db : DB) (t : Jwt) (now : Nat) :
    DB × Except SvcError (Jwt × Jwt) :=
  match verifyRefreshToken t now with
  | .error e => (db, .error e)
  | .ok _ =>
    match db.refreshTokens.find? (fun r => r.token = t) with
    | none => (db, .error (.unauthorized "Invalid refresh token" .TOKEN_INVALID))
    | some stored =>
      if stored.revokedAt.isSome then
        (db, .error (.unauthorized "Refresh token has been revoked" .TOKEN_INVALID))
      else if stored.expiresAt < now then
        (db, .error (.unauthorized "Refresh token expired" .TOKEN_EXPIRED))
      else
        match db.users.find? (fun u => u.id = stored.userId) with
        | none => (db, .error (.db .INTERNAL))
        | some user =>
          let db1 : DB :=
            { db with refreshTokens := db.refreshTokens.map (fun r =>
                if r.id = stored.id then { r with revokedAt := some now } else r) }
          let payload : TokenPayload :=
            { userId := user.id, email := user.email, role := user.role }
          let newAccess := generateAccessToken payload now
          let newRefresh := generateRefreshToken payload now
          match storeRefreshToken db1 newRefresh user.id now with
          | .error e => (db1, .error e)
          | .ok db2 => (db2, .ok (newAccess, newRefresh))

/-- logout: revoke a matching non-revoked record; idempotent otherwise. -/
def logout (db : DB) (t : Jwt) (now : Nat) : DB :=
  match db.refreshTokens.find? (fun r => r.token = t) with
  | none => db
  | some stored =>
    if stored.revokedAt.isSome then db
    else
      { db with refreshTokens := db.refreshTokens.map (fun r =>
          if r.id = stored.id then { r with revokedAt := some now } else r) }

/-- cleanupExpiredTokens: deleteMany of rows whose expiresAt is past OR
whose revokedAt is set, returning the number of deleted rows. -/
def cleanupExpiredTokens (db : DB) (now : Nat) : DB × Nat :=
  let deleted := db.refreshTokens.filter
    (fun r => r.expiresAt < now || r.revokedAt.isSome)
  let kept := db.refreshTokens.filter
    (fun r => !(r.expiresAt < now || r.revokedAt.isSome))
  ({ db with refreshTokens := kept }, deleted.length)

/-! Agent client, from the agentClient module embedded in src/docs/DEPLOYMENT.md.
The thirteen markdown regular expressions of detectMessageFormat are
translated into executable predicates over the character list of the text.
JavaScript semantics respected here: the s flag lets the dot cross
newlines, the m flag anchors caret at every line start, and backslash-s
matches the JavaScript whitespace set including the newline itself. -/

def backtick : Char := Char.ofNat 96

def isJsWhitespace (c : Char) : Bool :=
  let n := c.toNat
  n = 9 || n = 10 || n = 11 || n = 12 || n = 13 || n = 32 || n = 160 ||
  n = 5760 || (8192 ≤ n && n ≤ 8202) || n = 8232 || n = 8233 || n = 8239 ||
  n = 8287 || n = 12288 || n = 65279

def startsWithSeq : List Char → List Char → Bool
  | [], _ => true
  | _ :: _, [] => false
  | p :: ps, c :: cs => p = c && startsWithSeq ps cs

def containsSeq (pat : List Char) (s : List Char) : Bool :=
  s.tails.any (startsWithSeq pat)

/-- Suffix immediately after the first occurrence of the pattern, if any. -/
def findDrop (pat : List Char) : List Char → Option (List Char)
  | [] => none
  | c :: rest =>
    if startsWithSeq pat (c :: rest) then some (List.drop (pat.length - 1) rest)
    else findDrop pat rest

/-- Two disjoint occurrences of the pattern, the shape of a lazy
dotall regex of the form pat-dot-star-lazy-pat. -/
def twoDisjoint (pat : List Char) (s : List Char) : Bool :=
  match findDrop pat s with
  | some r => containsSeq pat r
  | none => false

/-- Suffixes of the text that sit at a line start, i.e. the anchors of a
multiline caret: the whole text plus everything following a newline. -/
def lineStartSuffixes (s : List Char) : List (List Char) :=
  s :: (s.tails.filterMap (fun t =>
    match t with
    | c :: rest => if c = '\n' then some rest else none
    | [] => none))

/-- Lines of the text, split on the newline character. -/
def splitLines : List Char → List (List Char)
  | [] => [[]]
  | c :: rest =>
    if c = '\n' then [] :: splitLines rest
    else
      match splitLines rest with
      | l :: ls => (c :: l) :: ls
      | [] => [[c]]

/-- Triple-backtick fenced code block regex. -/
def pCodeBlock (s : List Char) : Bool :=
  twoDisjoint [backtick, backtick, backtick] s

def inlineAfterTick : List Char → Bool → Bool
  | [], _ => false
  | c :: rest, seen =>
    if c = backtick then (if seen then true else inlineAfterTick rest false)
    else inlineAfterTick rest true

/-- Inline code regex: a backtick, one or more non-backticks, a backtick. -/
def pInlineCode : List Char → Bool
  | [] => false
  | c :: rest => if c = backtick then inlineAfterTick rest false else pInlineCode rest

def headerAt (t : List Char) : Bool :=
  let k := (t.takeWhile (fun c => c = '#')).length
  1 ≤ k && k ≤ 6 &&
    (match t.drop k with
     | c :: _ => isJsWhitespace c
     | [] => false)

/-- Header regex: a line start, one to six hashes, then a whitespace. -/
def pHeader (s : List Char) : Bool :=
  (lineStartSuffixes s).any headerAt

/-- Bold regex: double asterisk, lazy dotall, double asterisk. -/
def pBold (s : List Char) : Bool := twoDisjoint ['*', '*'] s

/-- Italic regex with asterisks: two asterisks anywhere. -/
def pItalicStar (s : List Char) : Bool := twoDisjoint ['*'] s

/-- Italic regex with underscores: two underscores anywhere. -/
def pItalicUnderscore (s : List Char) : Bool := twoDisjoint ['_'] s

def listMarkerAt (t : List Char) : Bool :=
  let u := t.dropWhile isJsWhitespace
  match u with
  | m :: w :: _ => (m = '-' || m = '*' || m = '+') && isJsWhitespace w
  | _ => false

/-- Unordered list regex: line start, whitespace, one of dash star plus,
then a whitespace. -/
def pUList (s : List Char) : Bool :=
  (lineStartSuffixes s).any listMarkerAt

def orderedAt (t : List Char) : Bool :=
  let u := t.dropWhile isJsWhitespace
  let d := u.takeWhile Char.isDigit
  !d.isEmpty &&
    (match u.drop d.length with
     | c :: w :: _ => c = '.' && isJsWhitespace w
     | _ => false)

/-- Ordered list regex: line start, whitespace, digits, a dot, whitespace. -/
def pOList (s : List Char) : Bool :=
  (lineStartSuffixes s).any orderedAt

def linkParen : List Char → Bool
  | [] => false
  | c :: rest =>
    if c = ')' then true
    else if c = '\n' then false
    else linkParen rest

def linkClose : List Char → Bool
  | [] => false
  | c :: rest =>
    if c = '\n' then false
    else if c = ']' then
      match rest with
      | c2 :: r2 => if c2 = '(' && linkParen r2 then true else linkClose rest
      | [] => false
    else linkClose rest

/-- Link regex: bracketed text then parenthesised target, dots not crossing
newlines, with the backtracking of the two lazy groups. -/
def pLink (s : List Char) : Bool :=
  s.tails.any (fun t =>
    match t with
    | c :: rest => c = '[' && linkClose rest
    | [] => false)

def quoteAt (t : List Char) : Bool :=
  let u := t.dropWhile isJsWhitespace
  match u with
  | m :: w :: _ => m = '>' && isJsWhitespace w
  | _ => false

/-- Blockquote regex: line start, whitespace, a greater-than sign, then a
whitespace. -/
def pBlockquote (s : List Char) : Bool :=
  (lineStartSuffixes s).any quoteAt

/-- Table regex: some line holds at least three pipes. -/
def pTable (s : List Char) : Bool :=
  (splitLines s).any (fun l => 3 ≤ l.count '|')

/-- Horizontal rule regex: some line is three or more dashes and nothing else. -/
def pHRule (s : List Char) : Bool :=
  (splitLines s).any (fun l => 3 ≤ l.length && l.all (fun c => c = '-'))

/-- Strikethrough regex: double tilde, lazy dotall, double tilde. -/
def pStrike (s : List Char) : Bool := twoDisjoint ['~', '~'] s

def markdownPatternList : List (List Char → Bool) :=
  [pCodeBlock, pInlineCode, pHeader, pBold, pItalicStar, pItalicUnderscore,
   pUList, pOList, pLink, pBlockquote, pTable, pHRule, pStrike]

/-- detectMessageFormat: the markdown tag exactly when one of the thirteen
patterns matches the content, the text tag otherwise. -/
def detectMessageFormat (content : String) : MessageFormat :=
  if markdownPatternList.any (fun p => p content.toList) then .markdown else .text

structure LLMResponse where
  response : String
  toolCallsMade : Nat
  iterations : Nat
deriving DecidableEq

/-- Outcome of the single outbound fetch of the agent client: either a
well-shaped JSON body, or one of the failure modes that land in the catch
block (fetch rejection, timeout abort, non-2xx status, body that fails to
parse). -/
inductive NetOutcome
  | ok (resp : LLMResponse)
  | networkError
  | timeout
  | httpError (status : Nat)
  | malformedBody
deriving DecidableEq

structure AgentResponse where
  content : String
  format : MessageFormat
  metadata : Option MessageMetadata
deriving DecidableEq

def fallbackContent : String :=
  "I" ++ String.mk [Char.ofNat 39] ++
  "m having trouble processing your message right now. Please try again."

def fallbackAgentResponse : AgentResponse :=
  { content := fallbackContent, format := .text,
    metadata := some { model := "llm-backend-v1", tokens := some 0, processingTime := none } }

def transformMessagesToLLMFormat (history : List Message) (current : String) :
    List (String × String) :=
  history.map (fun m => (m.role, m.content)) ++ [("user", current)]

/-- agentClient sendMessage: on a well-shaped response, sniff the format and
attach the heuristic metadata; on any failure, return the fixed fallback
reply instead of raising. -/
def agentSendMessage (message : String) (history : List Message)
    (outcome : NetOutcome) : AgentResponse :=
  let _request := transformMessagesToLLMFormat history message
  match outcome with
  | .ok data =>
    { content := data.response, format := detectMessageFormat data.response,
      metadata := some { model := "llm-backend-v1",
                         tokens := some (data.response.length / 4),
                         processingTime := some (data.iterations * 100) } }
  | _ => fallbackAgentResponse

/-! Chat service, from the chatService module embedded in src/docs/DEPLOYMENT.md -/

structure SendMessageData where
  userId : String
  message : String
  conversationId : Option String
deriving DecidableEq

structure MessageResponse where
  conversationId : String
  userMessage : Message
  assistantMessage : Message
deriving DecidableEq

/-- generateConversationTitle: substring of the first fifty characters,
with an ellipsis appended when the message was longer. -/
def generateConversationTitle (message : String) : String :=
  let cs := message.toList
  let title := cs.take 50
  if title.length < cs.length then String.mk (title ++ ['.', '.', '.'])
  else String.mk title

def insertByTs (m : Message) : List Message → List Message
  | [] => [m]
  | x :: xs => if x.timestamp ≤ m.timestamp then x :: insertByTs m xs else m :: x :: xs

def sortByTs : List Message → List Message
  | [] => []
  | m :: ms => insertByTs m (sortByTs ms)

/-- Conversation resolution step of chatService sendMessage: fetch and
owner-check an existing conversation (with its messages ordered by
timestamp), or create a fresh one titled from the first message. -/
def resolveConversation (db : DB) (data : SendMessageData) (now : Nat) :
    Except SvcError (DB × Conversation × List Message) :=
  match data.conversationId with
  | some cid =>
    match db.conversations.find? (fun c => c.id = cid) with
    | none => .error (.notFound "Conversation not found" .CONVERSATION_NOT_FOUND)
    | some conv =>
      if conv.userId ≠ data.userId then
        .error (.forbidden "You do not have access to this conversation" .FORBIDDEN)
      else
        .ok (db, conv, sortByTs (db.messages.filter (fun m => m.conversationId = conv.id)))
  | none =>
    let conv : Conversation :=
      { id := freshId db.nextId, userId := data.userId,
        title := generateConversationTitle data.message,
        createdAt := now, updatedAt := now }
    .ok ({ db with conversations := db.conversations ++ [conv], nextId := db.nextId + 1 },
         conv, [])

/-- Remainder of the pipeline: persist the user turn, call the agent,
persist the assistant turn, bump the conversation timestamp. -/
def chatPipelineRest (db : DB) (data : SendMessageData) (net : NetOutcome) (now : Nat)
    (conv : Conversation) (history : List Message) : DB × Except SvcError MessageResponse :=
  let userMessage : Message :=
    { id := freshId db.nextId, conversationId := conv.id, role := "user",
      content := data.message, format := .text, status := "sent",
      timestamp := now, metadata := none }
  let db1 : DB := { db with messages := db.messages ++ [userMessage], nextId := db.nextId + 1 }
  let agentResponse := agentSendMessage data.message history net
  let assistantMessage : Message :=
    { id := freshId db1.nextId, conversationId := conv.id, role := "assistant",
      content := agentResponse.content, format := agentResponse.format,
      status := "sent", timestamp := now, metadata := agentResponse.metadata }
  let db2 : DB := { db1 with messages := db1.messages ++ [assistantMessage],
                             nextId := db1.nextId + 1 }
  let db3 : DB := { db2 with conversations := db2.conversations.map (fun c =>
                      if c.id = conv.id then { c with updatedAt := now } else c) }
  (db3, .ok { conversationId := conv.id, userMessage := userMessage,
              assistantMessage := assistantMessage })

/-- chatService sendMessage: resolve the conversation, then run the
persist-call-persist pipeline; only resolution errors escape. -/
def chatSendMessage (db : DB) (data : SendMessageData) (net : NetOutcome) (now : Nat) :
    DB × Except SvcError MessageResponse :=
  match resolveConversation db data now with
  | .error e => (db, .error e)
  | .ok (db1, conv, history) => chatPipelineRest db1 data net now conv history

/-- Precondition of claim C1: the resolution step passes, i.e. no
conversation id was supplied, or the conversation exists and is owned by
the caller. -/
def resolutionOk (db : DB) (data : SendMessageData) : Prop :=
  match data.conversationId with
  | none => True
  | some cid =>
    ∃ conv, db.conversations.find? (fun c => c.id = cid) = some conv ∧
      conv.userId = data.userId

/-! LLM lookup controller, from src/src/controllers/llmController.ts -/

structure PublicUser where
  id : String
  name : String
  email : String
  role : String
  emailVerified : Bool
  createdAt : Nat
  updatedAt : Nat
deriving DecidableEq

def toPublicUser (u : User) : PublicUser :=
  { id := u.id, name := u.name, email := u.email, role := u.role,
    emailVerified := u.emailVerified, createdAt := u.createdAt, updatedAt := u.updatedAt }

/-- getUserById of the LLM controller: select only the seven public
columns of the user row. -/
def getUserById (db : DB) (userId : String) : Except SvcError PublicUser :=
  match db.users.find? (fun u => u.id = userId) with
  | none => .error (.notFound "User not found" .USER_NOT_FOUND)
  | some u => .ok (toPublicUser u)

/-- Agreement on the seven selected columns; two user rows related this way
differ at most in password, loginAttempts, lockedUntil and lastLoginAt. -/
def publicFieldsEq (u v : User) : Prop :=
  u.id = v.id ∧ u.name = v.name ∧ u.email = v.email ∧ u.role = v.role ∧
  u.emailVerified = v.emailVerified ∧ u.createdAt = v.createdAt ∧ u.updatedAt = v.updatedAt

/-! Claim-side definitions and concrete data used by witnesses and
counterexamples. -/

/-- Modelled from the claim C5 wording: the remaining lockout time
expressed in seconds, rounded up. The source computes minutes instead. -/
def claimRemainingSeconds (lockedUntil now : Nat) : Nat :=
  ((lockedUntil - now) + 999) / 1000

/-- Modelled from the claim C7 wording: the enumerated rich-format
indicators are a fenced code block, a header, emphasis markers, a list
item, a link, a block quote, a table, a horizontal rule, or strikethrough.
The inline-code pattern of the source is absent from this enumeration. -/
def claimC7IndicatorB (s : String) : Bool :=
  pCodeBlock s.toList || pHeader s.toList || pBold s.toList || pItalicStar s.toList ||
  pItalicUnderscore s.toList || pUList s.toList || pOList s.toList || pLink s.toList ||
  pBlockquote s.toList || pTable s.toList || pHRule s.toList || pStrike s.toList

def loginFold (db : DB) (email password : String) : List Nat → DB
  | [] => db
  | t :: ts => loginFold (login db email password t).1 email password ts

def demoUser : User :=
  { id := "u1", email := "demo@example.com", password := bcryptHash "Password123!",
    name := "Demo", role := "user", emailVerified := false, loginAttempts := 0,
    lockedUntil := none, createdAt := 0, updatedAt := 0, lastLoginAt := none }

def demoDB : DB := { emptyDB with users := [demoUser] }

def demoRegisterData : RegisterData :=
  { email := "demo@example.com", password := "Password123!", name := "Demo" }

def c2Payload : TokenPayload :=
  { userId := "u1", email := "demo@example.com", role := "user" }

def c2Token : Jwt := generateRefreshToken c2Payload 100

def c2Record : RefreshTokenRecord :=
  { id := "rt-1", token := c2Token, userId := "u1", expiresAt := 604800100,
    createdAt := 100, revokedAt := none }

def c2DB : DB := { emptyDB with users := [demoUser], refreshTokens := [c2Record] }

def c4User : User := { demoUser with loginAttempts := 5, lockedUntil := some 100 }

def c4DB : DB := { emptyDB with users := [c4User] }

def c5User : User := { demoUser with loginAttempts := 5, lockedUntil := some 120000 }

def c5DB : DB := { emptyDB with users := [c5User] }

def c6Record : RefreshTokenRecord :=
  { id := "rt-6", token := c2Token, userId := "u1", expiresAt := 1000000,
    createdAt := 0, revokedAt := some 5 }

def c6DB : DB := { emptyDB with refreshTokens := [c6Record] }

def c7Input : String := String.mk [backtick, 'x', backtick]

def c8Data : SendMessageData :=
  { userId := "u1", message := String.mk (List.replicate 51 'a'), conversationId := none }

def c8WitnessData : SendMessageData :=
  { userId := "u1", message := "Hello!", conversationId := none }

def c1Data : SendMessageData :=
  { userId := "u1", message := "Hello!", conversationId := none }

def c9Result : DB × Except SvcError AuthResponse := register emptyDB demoRegisterData 5

def c9Resp : AuthResponse := c9Result.2.toOption.getD dummyAuthResponse

def c10UserA : User :=
  { demoUser with password := bcryptHash "pw-one", loginAttempts := 3,
                  lockedUntil := some 42, lastLoginAt := some 7 }

def c10UserB : User :=
  { demoUser with password := bcryptHash "pw-two", loginAttempts := 0,
                  lockedUntil := none, lastLoginAt := none }

def c10dbA : DB := { emptyDB with users := [c10UserA] }

def c10dbB : DB := { emptyDB with users := [c10UserB] }

/-! Shared helper lemmas -/

theorem filterLengthPartition {α : Type} (p : α → Bool) (l : List α) :
    (l.filter (fun a => !(p a))).length + (l.filter p).length = l.length := by
  induction l with
  | nil => rfl
  | cons a t ih =>
    cases hpa : p a <;> simp [List.filter_cons, hpa] <;> omega

theorem findMapPred {α : Type} (l : List α) (f : α → α) (p : α → Bool)
    (h : ∀ a, p (f a) = p a) : (l.map f).find? p = (l.find? p).map f := by
  rw [List.find?_map]
  have hpf : p ∘ f = p := funext (fun a => h a)
  rw [hpf]

/-! Claim C6 -/

/-- Claim C6 counterexample: cleanupExpiredTokens hard-deletes a revoked
but not-yet-expired row (and counts it), although the claim says such a row
is left in place. -/
theorem cleanup_deletes_revoked_unexpired :
    ¬ c6Record.expiresAt < 50 ∧ c6Record.revokedAt ≠ none ∧
    c6Record ∈ c6DB.refreshTokens ∧
    (cleanupExpiredTokens c6DB 50).1.refreshTokens = [] ∧
    (cleanupExpiredTokens c6DB 50).2 = 1 := by
  refine ⟨by decide, by decide, ?_, ?_, ?_⟩ <;> decide

/-- Claim C6 amended: the sweep hard-deletes exactly the rows that are past
expiry OR revoked (not: past expiry AND revoked), and returns the number of
deleted rows; every kept row was already present. -/
theorem cleanupExpiredTokens_spec (db : DB) (now : Nat) :
    (∀ r ∈ db.refreshTokens,
        r ∈ (cleanupExpiredTokens db now).1.refreshTokens ↔
          ¬ (r.expiresAt < now ∨ r.revokedAt ≠ none)) ∧
    (cleanupExpiredTokens db now).1.refreshTokens.length + (cleanupExpiredTokens db now).2
        = db.refreshTokens.length ∧
    (∀ r ∈ (cleanupExpiredTokens db now).1.refreshTokens, r ∈ db.refreshTokens) := by
  refine ⟨?_, ?_, ?_⟩
  · intro r hr
    simp [cleanupExpiredTokens, List.mem_filter, hr, Option.isSome_iff_ne_none]
  · exact filterLengthPartition (fun r => r.expiresAt < now || r.revokedAt.isSome)
      db.refreshTokens
  · intro r hr
    exact (List.mem_filter.mp hr).1

/-- Claim C6 amended, witness at a concrete store: one expired-and-revoked
row is deleted and one live row is kept. -/
theorem cleanupExpiredTokens_spec_witness :
    (∀ r ∈ c2DB.refreshTokens,
        r ∈ (cleanupExpiredTokens c2DB 200).1.refreshTokens ↔
          ¬ (r.expiresAt < 200 ∨ r.revokedAt ≠ none)) ∧
    (cleanupExpiredTokens c2DB 200).1.refreshTokens.length + (cleanupExpiredTokens c2DB 200).2
        = c2DB.refreshTokens.length ∧
    (∀ r ∈ (cleanupExpiredTokens c2DB 200).1.refreshTokens, r ∈ c2DB.refreshTokens) :=
  cleanupExpiredTokens_spec c2DB 200

/-! Claim C7 -/

/-- Claim C7 counterexample: a text containing only an inline code span is
tagged markdown by the source, although it matches none of the indicators
the claim enumerates. -/
theorem detect_format_inline_code_counterexample :
    detectMessageFormat c7Input = .markdown ∧
    claimC7IndicatorB c7Input = false ∧
    pInlineCode c7Input.toList = true := by
  refine ⟨?_, ?_, ?_⟩ <;> decide

/-- Claim C7 amended: the format tag is a pure function of the text; it is
markdown exactly when the text matches the claim-enumerated indicators OR
contains an inline code span, and it is always one of the two tags.
Determinism holds definitionally in this embedding since
detectMessageFormat is a function of the text alone. -/
theorem detectMessageFormat_characterization (s : String) :
    (detectMessageFormat s = .markdown ↔
      (pInlineCode s.toList = true ∨ claimC7IndicatorB s = true)) ∧
    (detectMessageFormat s = .markdown ∨ detectMessageFormat s = .text) := by
  constructor
  · unfold detectMessageFormat markdownPatternList
    split <;> rename_i hcond <;>
      simp only [List.any_cons, List.any_nil, Bool.or_eq_true, Bool.false_or] at hcond <;>
      unfold claimC7IndicatorB <;>
      simp only [Bool.or_eq_true]
    · exact iff_of_true (by trivial) (by tauto)
    · exact iff_of_false (by simp) (by tauto)
  · unfold detectMessageFormat
    split
    · exact Or.inl rfl
    · exact Or.inr rfl

/-! Claim C8 -/

/-- Claim C8 counterexample: a sendMessage call without a conversation id
and a 51-character message creates a conversation whose title holds 53
characters, exceeding the 50-character cap the claim states for the whole
title. -/
theorem conversation_title_cap_counterexample :
    c8Data.conversationId = none ∧
    c8Data.message.toList.length = 51 ∧
    ((chatSendMessage emptyDB c8Data .networkError 0).1.conversations.map
        (fun c => c.title.toList.length)) = [53] ∧
    ¬ (53 ≤ 50) := by
  refine ⟨rfl, ?_, ?_, ?_⟩ <;> decide

/-- Claim C8 amended: a sendMessage call without a conversation id creates
a conversation titled by generateConversationTitle; the title equals the
message when the message is at most 50 characters, and otherwise is the
50-character prefix with a three-character ellipsis appended, 53 characters
in total (so it exceeds the 50-character cap by the ellipsis). -/
theorem new_conversation_title_truncation (db : DB) (data : SendMessageData)
    (net : NetOutcome) (now : Nat) (h : data.conversationId = none) :
    ∃ db2 resp, chatSendMessage db data net now = (db2, .ok resp) ∧
      (∃ conv ∈ db2.conversations, conv.id = resp.conversationId ∧
        conv.title = generateConversationTitle data.message) ∧
      (data.message.toList.length ≤ 50 →
        generateConversationTitle data.message = data.message) ∧
      (50 < data.message.toList.length →
        (generateConversationTitle data.message).toList =
          data.message.toList.take 50 ++ ['.', '.', '.'] ∧
        (generateConversationTitle data.message).toList.length = 53) := by
  simp only [chatSendMessage, resolveConversation, h, chatPipelineRest]
  refine ⟨_, _, rfl, ?_, ?_, ?_⟩
  · refine ⟨_, List.mem_map_of_mem _ (List.mem_append_right _ (List.mem_singleton_self _)), ?_, ?_⟩
    · simp
    · simp
  · intro hle
    simp only [generateConversationTitle]
    rw [List.take_of_length_le hle]
    simp
  · intro hgt
    have h50 : (data.message.toList.take 50).length = 50 := by
      rw [List.length_take]
      omega
    simp only [generateConversationTitle]
    rw [if_pos (by rw [h50]; omega)]
    constructor
    · rfl
    · show (data.message.toList.take 50 ++ ['.', '.', '.']).length = 53
      rw [List.length_append, h50]
      rfl

/-- Claim C8 amended, witness: concrete call with a short message. -/
theorem new_conversation_title_truncation_witness :
    c8WitnessData.conversationId = none ∧
    (∃ db2 resp, chatSendMessage emptyDB c8WitnessData .networkError 0 = (db2, .ok resp) ∧
      (∃ conv ∈ db2.conversations, conv.id = resp.conversationId ∧
        conv.title = generateConversationTitle c8WitnessData.message) ∧
      (c8WitnessData.message.toList.length ≤ 50 →
        generateConversationTitle c8WitnessData.message = c8WitnessData.message) ∧
      (50 < c8WitnessData.message.toList.length →
        (generateConversationTitle c8WitnessData.message).toList =
          c8WitnessData.message.toList.take 50 ++ ['.', '.', '.'] ∧
        (generateConversationTitle c8WitnessData.message).toList.length = 53)) :=
  ⟨rfl, new_conversation_title_truncation emptyDB c8WitnessData .networkError 0 rfl⟩

/-! Claim C10 -/

theorem findPublicCongr (us vs : List User) (uid : String)
    (h : List.Forall₂ publicFieldsEq us vs) :
    (us.find? (fun u => u.id = uid)).map toPublicUser =
      (vs.find? (fun u => u.id = uid)).map toPublicUser ∧
    ((us.find? (fun u => u.id = uid)) = none ↔ (vs.find? (fun u => u.id = uid)) = none) := by
  induction h with
  | nil => exact ⟨rfl, Iff.rfl⟩
  | cons huv htail ih =>
    rename_i u v us' vs'
    obtain ⟨hid, hname, hemail, hrole, hver, hcr, hup⟩ := huv
    by_cases hc : u.id = uid
    · have hcv : v.id = uid := hid ▸ hc
      rw [List.find?_cons_of_pos _ (by simp [hc]), List.find?_cons_of_pos _ (by simp [hcv])]
      refine ⟨?_, by simp⟩
      simp only [Option.map_some']
      congr 1
      simp [toPublicUser, hid, hname, hemail, hrole, hver, hcr, hup]
    · have hcv : ¬ v.id = uid := fun hh => hc (by rw [hid]; exact hh)
      rw [List.find?_cons_of_neg _ (by simp [hc]), List.find?_cons_of_neg _ (by simp [hcv])]
      exact ih

/-- Claim C10: getUserById depends only on the seven selected columns of
the user rows; two stores whose user rows agree on id, name, email, role,
emailVerified, createdAt and updatedAt (and so differ at most in password,
loginAttempts, lockedUntil and lastLoginAt) give identical responses for
every looked-up id, so the password verifier and the lockout state never
reach the output. -/
theorem getUserById_noninterference (us vs : List User)
    (rt : List RefreshTokenRecord) (cs : List Conversation) (ms : List Message) (n : Nat)
    (uid : String) (h : List.Forall₂ publicFieldsEq us vs) :
    getUserById { users := us, refreshTokens := rt, conversations := cs,
                  messages := ms, nextId := n } uid =
    getUserById { users := vs, refreshTokens := rt, conversations := cs,
                  messages := ms, nextId := n } uid := by
  obtain ⟨hmap, hnone⟩ := findPublicCongr us vs uid h
  simp only [getUserById]
  cases hu : us.find? (fun u => u.id = uid) with
  | none =>
    have hv : vs.find? (fun u => u.id = uid) = none := hnone.mp hu
    rw [hv]
  | some u =>
    rw [hu] at hmap
    cases hv : vs.find? (fun u => u.id = uid) with
    | none =>
      rw [hv] at hmap
      simp at hmap
    | some v =>
      rw [hv] at hmap
      simp only [Option.map_some', Option.some.injEq] at hmap
      simp only [hmap]

/-- Claim C10, witness: two single-user stores whose rows differ in the
password hash, the attempt counter, the lock and the last-login stamp give
the same response, although the rows themselves differ. -/
theorem getUserById_noninterference_witness :
    List.Forall₂ publicFieldsEq [c10UserA] [c10UserB] ∧
    c10UserA ≠ c10UserB ∧
    getUserById c10dbA "u1" = getUserById c10dbB "u1" :=
  ⟨List.Forall₂.cons (by refine ⟨?_, ?_, ?_, ?_, ?_, ?_, ?_⟩ <;> rfl) List.Forall₂.nil,
   by decide,
   getUserById_noninterference [c10UserA] [c10UserB] [] [] [] 0 "u1"
     (List.Forall₂.cons (by refine ⟨?_, ?_, ?_, ?_, ?_, ?_, ?_⟩ <;> rfl) List.Forall₂.nil)⟩

/-! Claim C5 -/

/-- Shared helper: a login attempt on a user whose lock is still in the
future is rejected with ACCOUNT_LOCKED carrying the remaining time in
rounded-up minutes, leaving the store untouched, whatever the supplied
password. -/
theorem login_locked_reject (db : DB) (u : User) (email password : String) (L now : Nat)
    (hfind : db.users.find? (fun x => x.email = toLowerStr email) = some u)
    (hl : u.lockedUntil = some L) (hnow : now < L) :
    login db email password now =
      (db, .error (.unauthorized (lockMessage (remainingLockMinutes L now)) .ACCOUNT_LOCKED)) := by
  simp [login, hfind, checkAccountLock, hl, hnow]

/-- Claim C5 counterexample: with 120000 milliseconds of lock remaining,
the AccountLocked rejection carries the value 2 (minutes), not the value
120 the claim (seconds) prescribes. -/
theorem lock_error_minutes_not_seconds :
    (login c5DB "demo@example.com" "Password123!" 0).2 =
      .error (.unauthorized (lockMessage (remainingLockMinutes 120000 0)) .ACCOUNT_LOCKED) ∧
    remainingLockMinutes 120000 0 = 2 ∧
    claimRemainingSeconds 120000 0 = 120 ∧
    lockMessage 2 ≠ lockMessage 120 ∧
    (2 : Nat) ≠ 120 := by
  refine ⟨rfl, ?_, ?_, ?_, ?_⟩ <;> decide

/-- Claim C5 amended: whenever a login attempt is rejected because the
account lock is still in the future, the AccountLocked error carries the
remaining lockout time expressed in minutes rounded up, and that value is
positive. -/
theorem lock_rejection_carries_ceil_minutes (db : DB) (u : User)
    (email password : String) (L now : Nat)
    (hfind : db.users.find? (fun x => x.email = toLowerStr email) = some u)
    (hl : u.lockedUntil = some L) (hnow : now < L) :
    (login db email password now).2 =
      .error (.unauthorized (lockMessage (remainingLockMinutes L now)) .ACCOUNT_LOCKED) ∧
    0 < remainingLockMinutes L now := by
  constructor
  · rw [login_locked_reject db u email password L now hfind hl hnow]
  · unfold remainingLockMinutes
    exact Nat.div_pos (by omega) (by norm_num)

/-- Claim C5 amended, witness at a concrete locked account. -/
theorem lock_rejection_carries_ceil_minutes_witness :
    c5DB.users.find? (fun x => x.email = toLowerStr "demo@example.com") = some c5User ∧
    c5User.lockedUntil = some 120000 ∧ (0 : Nat) < 120000 ∧
    ((login c5DB "demo@example.com" "Password123!" 0).2 =
      .error (.unauthorized (lockMessage (remainingLockMinutes 120000 0)) .ACCOUNT_LOCKED) ∧
     0 < remainingLockMinutes 120000 0) :=
  ⟨by decide, rfl, by decide,
   lock_rejection_carries_ceil_minutes c5DB c5User "demo@example.com" "Password123!" 120000 0
     (by decide) rfl (by decide)⟩

/-! Claim C9 -/

theorem storeRefreshToken_users (db db2 : DB) (tok : Jwt) (uid : String) (now : Nat)
    (h : storeRefreshToken db tok uid now = .ok db2) : db2.users = db.users := by
  unfold storeRefreshToken at h
  split at h
  · exact Except.noConfusion h
  · split at h
    · exact Except.noConfusion h
    · injection h with h
      subst h
      rfl

/-- Claim C9: every successful registration returns an access token that
verifies under the access verifier and a refresh token that verifies under
the refresh verifier, both decoding to the same user id, namely the id of
the account just created. -/
theorem register_tokens_round_trip (db db2 : DB) (data : RegisterData) (now : Nat)
    (resp : AuthResponse) (h : register db data now = (db2, .ok resp)) :
    (∃ d1, verifyAccessToken resp.accessToken now = .ok d1 ∧ d1.userId = resp.user.id) ∧
    (∃ d2, verifyRefreshToken resp.refreshToken now = .ok d2 ∧ d2.userId = resp.user.id) ∧
    (∃ u ∈ db2.users, u.id = resp.user.id) := by
  simp only [register] at h
  split at h
  · exact absurd (congrArg Prod.snd h) (by simp)
  · split at h <;> rename_i hstore
    · exact absurd (congrArg Prod.snd h) (by simp)
    · rw [Prod.mk.injEq] at h
      obtain ⟨hdb, hresp⟩ := h
      injection hresp with hresp
      subst hresp
      subst hdb
      have hacc : expiresInMs accessExpiry = 900000 := rfl
      have href : expiresInMs refreshExpiry = 604800000 := rfl
      refine ⟨⟨{ userId := freshId db.nextId, email := toLowerStr data.email, role := "user",
                 iat := now, exp := now + expiresInMs accessExpiry }, ?_, rfl⟩,
              ⟨{ userId := freshId db.nextId, email := toLowerStr data.email, role := "user",
                 iat := now, exp := now + expiresInMs refreshExpiry }, ?_, rfl⟩, ?_⟩
      · simp only [generateAccessToken, jwtSign, verifyAccessToken]
        rw [if_neg (by simp), if_neg (by rw [hacc]; omega)]
      · simp only [generateRefreshToken, jwtSign, verifyRefreshToken]
        rw [if_neg (by simp), if_neg (by rw [href]; omega)]
      · rw [storeRefreshToken_users _ _ _ _ _ hstore]
        exact ⟨_, List.mem_append_right _ (List.mem_singleton_self _), rfl⟩

/-- Claim C9, witness: the demo registration succeeds and its tokens
round-trip. -/
theorem register_tokens_round_trip_witness :
    register emptyDB demoRegisterData 5 = (c9Result.1, .ok c9Resp) ∧
    ((∃ d1, verifyAccessToken c9Resp.accessToken 5 = .ok d1 ∧ d1.userId = c9Resp.user.id) ∧
     (∃ d2, verifyRefreshToken c9Resp.refreshToken 5 = .ok d2 ∧ d2.userId = c9Resp.user.id) ∧
     (∃ u ∈ c9Result.1.users, u.id = c9Resp.user.id)) :=
  ⟨rfl, register_tokens_round_trip emptyDB c9Result.1 demoRegisterData 5 c9Resp rfl⟩

/-! Claim C1 -/

/-- Claim C1: when conversation resolution passes, the pipeline succeeds
for every network outcome; the persisted user turn does not depend on the
outcome (it is persisted before the adapter is invoked), and on any adapter
failure the call still returns ok, with an assistant turn carrying the
fixed fallback content appended, and both persisted turns returned. -/
theorem send_message_durable_fallback (db : DB) (data : SendMessageData)
    (net : NetOutcome) (now : Nat)
    (hres : resolutionOk db data)
    (hfail : ∀ r, net ≠ NetOutcome.ok r) :
    ∃ db2 resp, chatSendMessage db data net now = (db2, .ok resp) ∧
      resp.userMessage.role = "user" ∧
      resp.userMessage.content = data.message ∧
      resp.userMessage ∈ db2.messages ∧
      resp.assistantMessage.role = "assistant" ∧
      resp.assistantMessage.content = fallbackContent ∧
      resp.assistantMessage ∈ db2.messages ∧
      (∀ net2, ∃ db3 resp3, chatSendMessage db data net2 now = (db3, .ok resp3) ∧
        resp3.userMessage = resp.userMessage ∧ resp3.userMessage ∈ db3.messages) := by
  obtain ⟨db1, conv, history, hre⟩ :
      ∃ db1 conv history, resolveConversation db data now = .ok (db1, conv, history) := by
    unfold resolutionOk at hres
    unfold resolveConversation
    cases hc : data.conversationId with
    | none => exact ⟨_, _, _, rfl⟩
    | some cid =>
      rw [hc] at hres
      obtain ⟨conv, hfind, hown⟩ := hres
      refine ⟨db, conv, sortByTs (db.messages.filter (fun m => m.conversationId = conv.id)), ?_⟩
      simp only [hfind]
      rw [if_neg (by simp [hown])]
  have hfb : agentSendMessage data.message history net = fallbackAgentResponse := by
    cases net with
    | ok r => exact absurd rfl (hfail r)
    | networkError => rfl
    | timeout => rfl
    | httpError s => rfl
    | malformedBody => rfl
  simp only [chatSendMessage, hre, chatPipelineRest]
  refine ⟨_, _, rfl, rfl, rfl, ?_, rfl, ?_, ?_, ?_⟩
  · simp [List.mem_append]
  · simp only [hfb]
    rfl
  · simp [List.mem_append]
  · intro net2
    refine ⟨_, _, rfl, rfl, ?_⟩
    simp [List.mem_append]

/-- Claim C1, witness: with no conversation id and a simulated network
error, the call succeeds and both turns are persisted. -/
theorem send_message_durable_fallback_witness :
    resolutionOk emptyDB c1Data ∧
    (∃ db2 resp, chatSendMessage emptyDB c1Data .networkError 0 = (db2, .ok resp) ∧
      resp.userMessage.role = "user" ∧
      resp.userMessage.content = c1Data.message ∧
      resp.userMessage ∈ db2.messages ∧
      resp.assistantMessage.role = "assistant" ∧
      resp.assistantMessage.content = fallbackContent ∧
      resp.assistantMessage ∈ db2.messages ∧
      (∀ net2, ∃ db3 resp3, chatSendMessage emptyDB c1Data net2 0 = (db3, .ok resp3) ∧
        resp3.userMessage = resp.userMessage ∧ resp3.userMessage ∈ db3.messages)) :=
  ⟨trivial,
   send_message_durable_fallback emptyDB c1Data .networkError 0 trivial
     (fun _ h => NetOutcome.noConfusion h)⟩

/-! Claim C2 -/

/-- Claim C2 counterexample: at the very instant the presented token was
signed (a same-second refresh, since jwt.sign is deterministic), every
acceptance condition of the claim holds — the signature verifies, the
store record exists, is non-revoked and non-expired — yet the operation
does not return a brand-new pair: the freshly signed replacement equals
the presented token, the presented row (still holding that token value)
trips the unique token index on the insert, and the call returns a
unique-violation error instead of a rotation. -/
theorem refresh_same_instant_unique_violation :
    c2Token.secret = refreshSecret ∧ 100 < c2Token.exp ∧
    c2DB.refreshTokens.find? (fun r => r.token = c2Token) = some c2Record ∧
    c2Record.revokedAt = none ∧ ¬ c2Record.expiresAt < 100 ∧
    generateRefreshToken
      { userId := demoUser.id, email := demoUser.email, role := demoUser.role } 100 =
        c2Token ∧
    (refreshAccessToken c2DB c2Token 100).2 = .error (.db .UNIQUE_VIOLATION) :=
  ⟨rfl, by decide, by decide, rfl, by decide, rfl, rfl⟩

/-- Claim C2 amended: a refresh token accepted by refreshAccessToken
(signature verifies, store record present, non-revoked, non-expired; the
store user row exists) is rotated PROVIDED no stored token was signed at
the instant of the call, so that the deterministically re-signed
replacement is a fresh token value: then the returned refresh token
differs from the presented one, the presented record is revoked in place,
and a second presentation fails with TOKEN_INVALID. Without that proviso
the insert of the replacement can trip the unique token index and the
call throws instead of returning a pair. -/
theorem refresh_token_rotation (db : DB) (t : Jwt) (stored : RefreshTokenRecord)
    (user : User) (now : Nat)
    (hsec : t.secret = refreshSecret) (hexp : now < t.exp)
    (hfind : db.refreshTokens.find? (fun r => r.token = t) = some stored)
    (hrev : stored.revokedAt = none) (hnexp : ¬ stored.expiresAt < now)
    (huser : db.users.find? (fun x => x.id = stored.userId) = some user)
    (hfresh : ∀ r ∈ db.refreshTokens, r.token.iat ≠ now) :
    ∃ db2 newAccess newRefresh,
      refreshAccessToken db t now = (db2, .ok (newAccess, newRefresh)) ∧
      newRefresh ≠ t ∧
      db2.refreshTokens.find? (fun r => r.token = t) =
        some { stored with revokedAt := some now } ∧
      (∀ now2, now2 < t.exp →
        (refreshAccessToken db2 t now2).2 =
          .error (.unauthorized "Refresh token has been revoked" .TOKEN_INVALID)) := by
  have hver : ∀ m, m < t.exp → verifyRefreshToken t m =
      .ok { userId := t.payload.userId, email := t.payload.email,
            role := t.payload.role, iat := t.iat, exp := t.exp } := by
    intro m hm
    simp only [verifyRefreshToken]
    rw [if_neg (by simp [hsec]), if_neg (by omega)]
  have htok : stored.token = t := by
    have := List.find?_some hfind
    simpa using this
  have hmem := List.mem_of_find?_eq_some hfind
  have hiat : stored.token.iat ≠ now := hfresh stored hmem
  have hge : getTokenExpiry refreshExpiry now = some (now + 604800000) := rfl
  have hanyf : ((db.refreshTokens.map (fun r =>
      if r.id = stored.id then { r with revokedAt := some now } else r)).any
        (fun r => r.token = generateRefreshToken
          { userId := user.id, email := user.email, role := user.role } now)) = false := by
    rw [List.any_map, List.any_eq_false]
    intro r hr
    simp only [Function.comp, decide_eq_true_eq]
    intro hcontra
    have hrt : r.token = generateRefreshToken
        { userId := user.id, email := user.email, role := user.role } now := by
      by_cases hid : r.id = stored.id
      · rw [if_pos hid] at hcontra
        exact hcontra
      · rw [if_neg hid] at hcontra
        exact hcontra
    exact hfresh r hr (by rw [hrt]; rfl)
  have hpres : ∀ a : RefreshTokenRecord,
      (fun r => decide (r.token = t))
          ((fun r => if r.id = stored.id then { r with revokedAt := some now } else r) a)
        = (fun r => decide (r.token = t)) a := by
    intro a
    by_cases hid : a.id = stored.id <;> simp [hid]
  have hfound2 :
      ((db.refreshTokens.map (fun r : RefreshTokenRecord =>
          if r.id = stored.id then { r with revokedAt := some now } else r))
        ++ ({ id := freshId db.nextId,
              token := generateRefreshToken
                { userId := user.id, email := user.email, role := user.role } now,
              userId := user.id, expiresAt := now + 604800000,
              createdAt := now, revokedAt := none } : RefreshTokenRecord) :: []).find?
          (fun r => r.token = t) =
        some { stored with revokedAt := some now } := by
    rw [List.find?_append, findMapPred _ _ _ hpres, hfind, Option.map_some']
    rw [if_pos rfl, Option.or_some]
  have hmain : refreshAccessToken db t now =
      ({ users := db.users,
         refreshTokens :=
           (db.refreshTokens.map (fun r =>
             if r.id = stored.id then { r with revokedAt := some now } else r))
           ++ [{ id := freshId db.nextId,
                 token := generateRefreshToken
                   { userId := user.id, email := user.email, role := user.role } now,
                 userId := user.id, expiresAt := now + 604800000,
                 createdAt := now, revokedAt := none }],
         conversations := db.conversations, messages := db.messages,
         nextId := db.nextId + 1 },
       .ok (generateAccessToken { userId := user.id, email := user.email, role := user.role } now,
            generateRefreshToken { userId := user.id, email := user.email, role := user.role } now)) := by
    simp only [refreshAccessToken, hver now hexp, hfind, hrev, Option.isSome_none,
      Bool.false_eq_true, if_false, if_neg hnexp, huser, storeRefreshToken, hanyf, hge]
  refine ⟨_, _, _, hmain, ?_, ?_, ?_⟩
  · intro h
    have : t.iat = now := by rw [← h]; rfl
    exact (htok ▸ hiat) this
  · exact hfound2
  · intro now2 h2
    simp only [refreshAccessToken, hver now2 h2, hfound2]
    rfl


/-- Claim C2, witness: a concrete store with one live refresh credential
rotates it and rejects the replay. -/
theorem refresh_token_rotation_witness :
    c2Token.secret = refreshSecret ∧ 200 < c2Token.exp ∧
    c2DB.refreshTokens.find? (fun r => r.token = c2Token) = some c2Record ∧
    c2Record.revokedAt = none ∧ ¬ c2Record.expiresAt < 200 ∧
    c2DB.users.find? (fun x => x.id = c2Record.userId) = some demoUser ∧
    (∀ r ∈ c2DB.refreshTokens, r.token.iat ≠ 200) ∧
    (∃ db2 newAccess newRefresh,
      refreshAccessToken c2DB c2Token 200 = (db2, .ok (newAccess, newRefresh)) ∧
      newRefresh ≠ c2Token ∧
      db2.refreshTokens.find? (fun r => r.token = c2Token) =
        some { c2Record with revokedAt := some 200 } ∧
      (∀ now2, now2 < c2Token.exp →
        (refreshAccessToken db2 c2Token now2).2 =
          .error (.unauthorized "Refresh token has been revoked" .TOKEN_INVALID))) :=
  ⟨rfl, by decide, by decide, rfl, by decide, by decide, by decide,
   refresh_token_rotation c2DB c2Token c2Record demoUser 200 rfl (by decide) (by decide)
     rfl (by decide) (by decide) (by decide)⟩

/-- Shared helper: a wrong-password attempt on an unlocked account below
the attempt maximum increments the counter and rejects with
INVALID_CREDENTIALS. -/
theorem login_wrong_step (db : DB) (u : User) (email wrong : String) (t : Nat) (k : Nat)
    (hu : db.users = [u]) (he : toLowerStr email = u.email)
    (ha : u.loginAttempts = k) (hl : u.lockedUntil = none)
    (hw : bcryptCompare wrong u.password = false) (hk : k + 1 < maxLoginAttempts) :
    login db email wrong t =
      ({ db with users := [{ u with loginAttempts := k + 1 }] },
       .error (.unauthorized "Invalid email or password" .INVALID_CREDENTIALS)) := by
  have hfind : List.find? (fun x => x.email = toLowerStr email) [u] = some u :=
    List.find?_cons_of_pos _ (by simp [he])
  simp only [login, hu, hfind, checkAccountLock, hl, hw, Bool.false_eq_true, if_false,
    handleFailedLogin, ha, updateUser]
  rw [if_neg (by omega)]
  simp [hl]

/-- Shared helper: the wrong-password attempt that reaches the attempt
maximum stamps the lock and rejects with ACCOUNT_LOCKED. -/
theorem login_wrong_lock_step (db : DB) (u : User) (email wrong : String) (t : Nat) (k : Nat)
    (hu : db.users = [u]) (he : toLowerStr email = u.email)
    (ha : u.loginAttempts = k) (hl : u.lockedUntil = none)
    (hw : bcryptCompare wrong u.password = false) (hk : maxLoginAttempts ≤ k + 1) :
    login db email wrong t =
      ({ db with users :=
          [{ u with
               loginAttempts := k + 1,
               lockedUntil := some (t + accountLockoutDuration) }] },
       .error (.unauthorized "Too many failed login attempts. Account locked for 15 minutes"
         .ACCOUNT_LOCKED)) := by
  have hfind : List.find? (fun x => x.email = toLowerStr email) [u] = some u :=
    List.find?_cons_of_pos _ (by simp [he])
  simp only [login, hu, hfind, checkAccountLock, hl, hw, Bool.false_eq_true, if_false,
    handleFailedLogin, ha, updateUser]
  rw [if_pos (by omega)]
  simp [hl]

/-! Claim C3 -/

/-- Claim C3: from a fresh account (no failed attempts, no lock), five
consecutive wrong-password logins leave the account locked until the fifth
attempt time plus the lockout duration; while that lock is in the future,
a sixth attempt is rejected with ACCOUNT_LOCKED whatever password is
supplied — in particular with the correct one — so no password comparison
influences the outcome. -/
theorem five_wrong_logins_lock_account (db : DB) (u : User) (wrong : String)
    (t1 t2 t3 t4 t5 : Nat)
    (hu : db.users = [u]) (he : toLowerStr u.email = u.email)
    (ha : u.loginAttempts = 0) (hl : u.lockedUntil = none)
    (hw : bcryptCompare wrong u.password = false) :
    ∃ u5, (loginFold db u.email wrong [t1, t2, t3, t4, t5]).users = [u5] ∧
      u5.lockedUntil = some (t5 + accountLockoutDuration) ∧
      t5 < t5 + accountLockoutDuration ∧
      (∀ password t6, t6 < t5 + accountLockoutDuration →
        (login (loginFold db u.email wrong [t1, t2, t3, t4, t5]) u.email password t6).2 =
          .error (.unauthorized
            (lockMessage (remainingLockMinutes (t5 + accountLockoutDuration) t6))
            .ACCOUNT_LOCKED)) := by
  have f1 : (login db u.email wrong t1).1 =
      { db with users := [{ u with loginAttempts := 0 + 1 }] } := by
    rw [login_wrong_step db u u.email wrong t1 0 hu he ha hl hw (by decide)]
  have f2 : (login { db with users := [{ u with loginAttempts := 0 + 1 }] }
        u.email wrong t2).1 =
      { db with users := [{ u with loginAttempts := 1 + 1 }] } := by
    rw [login_wrong_step _ { u with loginAttempts := 0 + 1 } u.email wrong t2 1
      rfl he rfl hl hw (by decide)]
  have f3 : (login { db with users := [{ u with loginAttempts := 1 + 1 }] }
        u.email wrong t3).1 =
      { db with users := [{ u with loginAttempts := 2 + 1 }] } := by
    rw [login_wrong_step _ { u with loginAttempts := 1 + 1 } u.email wrong t3 2
      rfl he rfl hl hw (by decide)]
  have f4 : (login { db with users := [{ u with loginAttempts := 2 + 1 }] }
        u.email wrong t4).1 =
      { db with users := [{ u with loginAttempts := 3 + 1 }] } := by
    rw [login_wrong_step _ { u with loginAttempts := 2 + 1 } u.email wrong t4 3
      rfl he rfl hl hw (by decide)]
  have f5 : (login { db with users := [{ u with loginAttempts := 3 + 1 }] }
        u.email wrong t5).1 =
      { db with users :=
          [{ u with
               loginAttempts := 4 + 1,
               lockedUntil := some (t5 + accountLockoutDuration) }] } := by
    rw [login_wrong_lock_step _ { u with loginAttempts := 3 + 1 } u.email wrong t5 4
      rfl he rfl hl hw (by decide)]
  have d5 : loginFold db u.email wrong [t1, t2, t3, t4, t5] =
      { db with users :=
          [{ u with
               loginAttempts := 4 + 1,
               lockedUntil := some (t5 + accountLockoutDuration) }] } := by
    simp only [loginFold, f1, f2, f3, f4, f5]
  refine ⟨{ u with
            loginAttempts := 4 + 1,
            lockedUntil := some (t5 + accountLockoutDuration) }, ?_, rfl, ?_, ?_⟩
  · rw [d5]
  · exact Nat.lt_add_of_pos_right (by decide)
  · intro password t6 h6
    rw [d5]
    rw [login_locked_reject _
      { u with loginAttempts := 4 + 1, lockedUntil := some (t5 + accountLockoutDuration) }
      u.email password (t5 + accountLockoutDuration) t6
      (List.find?_cons_of_pos _ (by simp [he])) rfl h6]

/-- Claim C3, witness: five concrete wrong-password logins on the demo
account lock it; the sixth attempt is rejected for every password. -/
theorem five_wrong_logins_lock_account_witness :
    demoDB.users = [demoUser] ∧ toLowerStr demoUser.email = demoUser.email ∧
    demoUser.loginAttempts = 0 ∧ demoUser.lockedUntil = none ∧
    bcryptCompare "wrong-password" demoUser.password = false ∧
    (∃ u5, (loginFold demoDB demoUser.email "wrong-password" [1, 2, 3, 4, 5]).users = [u5] ∧
      u5.lockedUntil = some (5 + accountLockoutDuration) ∧
      5 < 5 + accountLockoutDuration ∧
      (∀ password t6, t6 < 5 + accountLockoutDuration →
        (login (loginFold demoDB demoUser.email "wrong-password" [1, 2, 3, 4, 5])
            demoUser.email password t6).2 =
          .error (.unauthorized
            (lockMessage (remainingLockMinutes (5 + accountLockoutDuration) t6))
            .ACCOUNT_LOCKED))) :=
  ⟨rfl, by decide, rfl, rfl, by decide,
   five_wrong_logins_lock_account demoDB demoUser "wrong-password" 1 2 3 4 5
     rfl (by decide) rfl rfl (by decide)⟩

/-! Claim C4 -/

/-- Claim C4 (code defect): on a login attempt after the lock has elapsed,
checkAccountLock resets the stored counter and lock, but the wrong-password
path then hands the stale in-memory attempt count (5) of the originally
fetched user row to handleFailedLogin, so a single wrong password is
counted as attempt six and immediately re-locks the account with
ACCOUNT_LOCKED — not counted as the first failed attempt as the claim and
the reset intend. -/
theorem login_after_expired_lock_relocks (db : DB) (u : User) (email wrong : String)
    (L now : Nat)
    (hu : db.users = [u]) (he : toLowerStr email = u.email)
    (ha : u.loginAttempts = 5) (hl : u.lockedUntil = some L) (hL : L ≤ now)
    (hw : bcryptCompare wrong u.password = false) :
    login db email wrong now =
      ({ db with users :=
          [{ u with
               loginAttempts := 6,
               lockedUntil := some (now + accountLockoutDuration) }] },
       .error (.unauthorized "Too many failed login attempts. Account locked for 15 minutes"
         .ACCOUNT_LOCKED)) := by
  have hfind : List.find? (fun x => x.email = toLowerStr email) [u] = some u :=
    List.find?_cons_of_pos _ (by simp [he])
  simp only [login, hu, hfind, checkAccountLock, hl]
  rw [if_neg (by omega)]
  simp only [hw, Bool.false_eq_true, if_false, handleFailedLogin, ha, updateUser]
  rw [if_pos (by decide)]
  simp [hu]

/-- Claim C4, witness: the concrete locked demo account whose lock has
elapsed is immediately re-locked by one wrong password. -/
theorem login_after_expired_lock_relocks_witness :
    c4DB.users = [c4User] ∧ toLowerStr c4User.email = c4User.email ∧
    c4User.loginAttempts = 5 ∧ c4User.lockedUntil = some 100 ∧ (100 : Nat) ≤ 200 ∧
    bcryptCompare "still-wrong" c4User.password = false ∧
    login c4DB c4User.email "still-wrong" 200 =
      ({ c4DB with users :=
          [{ c4User with
               loginAttempts := 6,
               lockedUntil := some (200 + accountLockoutDuration) }] },
       .error (.unauthorized "Too many failed login attempts. Account locked for 15 minutes"
         .ACCOUNT_LOCKED)) :=
  ⟨rfl, by decide, rfl, rfl, by decide, by decide,
   login_after_expired_lock_relocks c4DB c4User c4User.email "still-wrong" 100 200
     rfl (by decide) rfl rfl (by decide) (by decide)⟩

end EnglishTutor
